import Mathlib

/-
  Verification development for the Cisco CSR IPsec VPN device driver
  (neutron/services/vpn/device_drivers/cisco_ipsec.py).

  The Python source is shallowly embedded: dictionaries become association
  lists or explicit structures, exceptions become `Except`, stateful methods
  become explicit state-passing functions, and the remote CSR REST client
  (which lives outside this module) is modelled as an oracle giving the HTTP
  status code of each successive call.
-/

namespace Csr

/-- Python dict lookup (`d.get(k)` / `k in d`): first matching key wins.
All dict literals in the source have distinct keys, so first-match lookup
coincides with Python dict semantics. -/
def dictGet {α : Type} : List (String × α) → String → Option α
  | [], _ => none
  | (k, v) :: rest, key => if key = k then some v else dictGet rest key

/-- ASCII lowering of one character, modelling Python `str.lower()` on the
ASCII attr values used by the driver. -/
def lowerChar (c : Char) : Char :=
  if 'A' ≤ c ∧ c ≤ 'Z' then Char.ofNat (c.toNat + 32) else c

/-- Python `str.lower()` (ASCII, which covers every value in DIALECT_MAP). -/
def pyLower (s : String) : String :=
  String.mk (s.data.map lowerChar)

/-- Values stored in the driver's DIALECT_MAP: the tables mix unicode
strings (u'v1', u'sha', ...) and ints (group2 -> 2, ...). -/
inductive CsrVal
  | s (x : String)
  | n (x : Int)
  deriving DecidableEq

/-- The two resource kinds keying DIALECT_MAP / LIFETIME_MAP
(cisco_ipsec.py lines 566-597). -/
inductive DialectResource
  | ike_policy
  | ipsec_policy
  deriving DecidableEq

/-- CiscoCsrIPsecDriver.DIALECT_MAP (lines 566-594), including the 'name'
entry that lives in the same per-resource dict. -/
def DIALECT_MAP : DialectResource → List (String × CsrVal)
  | .ike_policy =>
      [("name", .s "IKE Policy"),
       ("v1", .s "v1"),
       ("sha1", .s "sha"),
       ("3des", .s "3des"),
       ("aes-128", .s "aes"),
       ("aes-192", .s "aes"),
       ("aes-256", .s "aes"),
       ("group2", .n 2),
       ("group5", .n 5),
       ("group14", .n 14)]
  | .ipsec_policy =>
      [("name", .s "IPSec Policy"),
       ("sha1", .s "esp-sha-hmac"),
       ("esp", .s "ah-sha-hmac"),
       ("ah", .s "ah-sha-hmac"),
       ("ah-esp", .s "ah-sha-hmac"),
       ("3des", .s "esp-3des"),
       ("aes-128", .s "esp-aes"),
       ("aes-192", .s "esp-aes"),
       ("aes-256", .s "esp-aes"),
       ("group2", .s "group2"),
       ("group5", .s "group5"),
       ("group14", .s "group14")]

/-- LIFETIME_MAP minimum (line 596-597). -/
def LIFETIME_MAP_min : DialectResource → Int
  | .ike_policy => 60
  | .ipsec_policy => 120

/-- LIFETIME_MAP maximum (line 596-597). -/
def LIFETIME_MAP_max : DialectResource → Int
  | .ike_policy => 86400
  | .ipsec_policy => 2592000

/-- The two exception classes raised by the translation layer:
CsrDriverImplementationError (lines 105-107) and CsrValidationFailure
(lines 100-102), carrying the same message parameters as the source. -/
inductive CsrError
  | implementationError (resource : String) (attr : String)
  | validationFailure (resource : String) (key : String) (value : CsrVal)
  deriving DecidableEq

/-- `self.DIALECT_MAP[resource]['name']` (line 601 / 611). -/
def dialectName (r : DialectResource) : String :=
  match dictGet (DIALECT_MAP r) "name" with
  | some (CsrVal.s n) => n
  | _ => ""

/-- CiscoCsrIPsecDriver.translate_dialect (lines 599-607). The `info`
argument is the string-valued part of the policy dict. -/
def translate_dialect (resource : DialectResource) (attr : String)
    (info : List (String × String)) : Except CsrError CsrVal :=
  match dictGet info attr with
  | none => .error (.implementationError (dialectName resource) attr)
  | some raw =>
    let value := pyLower raw
    match dictGet (DIALECT_MAP resource) value with
    | some w => .ok w
    | none => .error (.validationFailure (dialectName resource) attr (.s value))

/-- The nested `lifetime` dict of a policy; a missing 'units' / 'value' key
is `none`. -/
structure LifetimeInfo where
  units : Option String
  value : Option Int
  deriving DecidableEq

/-- One policy dict as consumed by the translation layer: its string-valued
attrs plus the optional nested lifetime dict. -/
structure PolicyInfo where
  attrs : List (String × String)
  lifetime : Option LifetimeInfo
  deriving DecidableEq

/-- CiscoCsrIPsecDriver.validate_lifetime (lines 609-629), preserving the
source's check order: missing lifetime, missing units, wrong units,
missing value, then the closed-interval range test. -/
def validate_lifetime (resource : DialectResource) (policy_info : PolicyInfo) :
    Except CsrError Int :=
  match policy_info.lifetime with
  | none => .error (.implementationError (dialectName resource) "lifetime")
  | some lifetime_info =>
    match lifetime_info.units with
    | none => .error (.implementationError (dialectName resource) "lifetime:units")
    | some units =>
      if units ≠ "seconds" then
        .error (.validationFailure (dialectName resource) "lifetime:units" (.s units))
      else
        match lifetime_info.value with
        | none => .error (.implementationError (dialectName resource) "lifetime:value")
        | some lifetime =>
          if LIFETIME_MAP_min resource ≤ lifetime ∧ lifetime ≤ LIFETIME_MAP_max resource then
            .ok lifetime
          else
            .error (.validationFailure (dialectName resource) "lifetime:value" (.n lifetime))

end Csr

-- ===== DEFINITIONS (continued) =====

/-- Orchestrator-level connection status vocabulary (plugins.common
constants ACTIVE / DOWN as used through STATUS_MAP, lines 80-83). -/
inductive VpnStatus
  | ACTIVE
  | DOWN
  deriving DecidableEq

namespace Swan

/-- BaseSwanProcess.DIALECT_MAP (cisco_ipsec.py lines 135-148). -/
def DIALECT_MAP : List (String × String) :=
  [("3des", "3des"),
   ("aes-128", "aes128"),
   ("aes-256", "aes256"),
   ("aes-192", "aes192"),
   ("group2", "modp1024"),
   ("group5", "modp1536"),
   ("group14", "modp2048"),
   ("group15", "modp3072"),
   ("bi-directional", "start"),
   ("response-only", "add"),
   ("v2", "insist"),
   ("v1", "never")]

/-- `self.DIALECT_MAP.get(obj[key], obj[key])` — the translation applied to
one attribute value by BaseSwanProcess._dialect (lines 176-177). -/
def dialectGet (v : String) : String :=
  (Csr.dictGet DIALECT_MAP v).getD v

/-- The ikepolicy attributes touched by translate_dialect (lines 169-174). -/
structure IkePolicyAttrs where
  ike_version : String
  encryption_algorithm : String
  auth_algorithm : String
  pfs : String
  deriving DecidableEq

/-- The ipsecpolicy attributes touched by translate_dialect (lines 170-174). -/
structure IpsecPolicyAttrs where
  encryption_algorithm : String
  auth_algorithm : String
  pfs : String
  deriving DecidableEq

/-- One ipsec_site_connection as touched by translate_dialect: its
initiator mode and the two embedded policies. -/
structure SiteConnection where
  initiator : String
  ikepolicy : IkePolicyAttrs
  ipsecpolicy : IpsecPolicyAttrs
  deriving DecidableEq

/-- The vpnservice as touched by translate_dialect: the list of
ipsec_site_connections. -/
structure VpnService where
  ipsec_site_connections : List SiteConnection
  deriving DecidableEq

/-- The per-connection effect of BaseSwanProcess.translate_dialect
(lines 164-174): each touched attribute is passed through _dialect. -/
def translateConn (c : SiteConnection) : SiteConnection :=
  { initiator := dialectGet c.initiator,
    ikepolicy :=
      { ike_version := dialectGet c.ikepolicy.ike_version,
        encryption_algorithm := dialectGet c.ikepolicy.encryption_algorithm,
        auth_algorithm := dialectGet c.ikepolicy.auth_algorithm,
        pfs := dialectGet c.ikepolicy.pfs },
    ipsecpolicy :=
      { encryption_algorithm := dialectGet c.ipsecpolicy.encryption_algorithm,
        auth_algorithm := dialectGet c.ipsecpolicy.auth_algorithm,
        pfs := dialectGet c.ipsecpolicy.pfs } }

/-- BaseSwanProcess.translate_dialect (lines 164-174): a falsy vpnservice
(None) returns immediately, otherwise every connection is translated in
place; modelled functionally. It is a total function, so it never raises
on any (well-formed) service description. -/
def translate_dialect : Option VpnService → Option VpnService
  | none => none
  | some svc =>
      some { ipsec_site_connections := svc.ipsec_site_connections.map translateConn }

/-- Outcome of one BaseSwanProcess.disable() call (lines 269-278).
`active` is the value of the `self.active` poll (it catches its own
RuntimeError internally, line 229-234, so it is just a boolean here) and
`stop_raises` says whether self.stop() raises RuntimeError. -/
structure DisableResult where
  stop_called : Bool
  config_removed : Bool
  raised : Bool
  deriving DecidableEq

/-- BaseSwanProcess.disable (lines 269-278): inside one try/except
RuntimeError block, stop() runs only when active, then remove_config()
(shutil.rmtree with ignore_errors=True, line 189-191, which cannot raise);
a RuntimeError from stop() is caught and logged, but then remove_config()
is never reached. -/
def disable (active stop_raises : Bool) : DisableResult :=
  if active then
    if stop_raises then
      { stop_called := true, config_removed := false, raised := false }
    else
      { stop_called := true, config_removed := true, raised := false }
  else
    { stop_called := false, config_removed := true, raised := false }

end Swan

/-- One entry of a connection-status map: {'status': ..., 
'updated_pending_status': ...} (lines 299-303 / 927-931). A fresh entry has
a null status and a false pending flag. -/
structure ConnStatusEntry where
  status : Option VpnStatus
  updated_pending_status : Bool
  deriving DecidableEq

namespace Csr

/-- The fields of one tracked process read by the status reconciler
(is_status_updated / copy_process_status, lines 934-954). -/
structure ReportProcess where
  id : String
  vpnservice_id : String
  updated_pending_status : Bool
  status : VpnStatus
  connection_status : List (String × ConnStatusEntry)
  deriving DecidableEq

/-- One cached status snapshot (get_process_status_cache, lines 925-932 /
copy_process_status, lines 948-954). -/
structure ProcessStatus where
  id : String
  status : Option VpnStatus
  updated_pending_status : Bool
  ipsec_site_connections : List (String × ConnStatusEntry)
  deriving DecidableEq

/-- The default snapshot inserted by get_process_status_cache for an
untracked process id (lines 926-931). -/
def empty_process_status (p : ReportProcess) : ProcessStatus :=
  { id := p.vpnservice_id, status := none, updated_pending_status := false,
    ipsec_site_connections := [] }

/-- CiscoCsrIPsecDriver.get_process_status_cache (lines 925-932): returns
the cached snapshot for the process id, inserting the default entry first
when absent; the possibly-extended cache is returned alongside. -/
def get_process_status_cache (cache : String → Option ProcessStatus)
    (p : ReportProcess) : ProcessStatus × (String → Option ProcessStatus) :=
  match cache p.id with
  | some s => (s, cache)
  | none =>
      (empty_process_status p,
       fun x => if x = p.id then some (empty_process_status p) else cache x)

/-- CiscoCsrIPsecDriver.is_status_updated (lines 934-941): true when the
pending flag is set, the overall status differs from the snapshot, or the
per-connection status map differs; the source returns None (falsy)
otherwise. -/
def is_status_updated (p : ReportProcess) (previous_status : ProcessStatus) : Bool :=
  if p.updated_pending_status then true
  else if some p.status ≠ previous_status.status then true
  else if p.connection_status ≠ previous_status.ipsec_site_connections then true
  else false

/-- The driver state read by report_status: the tracked processes and the
per-process snapshot cache. -/
structure ReportDriverState where
  processes : List ReportProcess
  process_status_cache : String → Option ProcessStatus

/-- CiscoCsrIPsecDriver.report_status (lines 956-974): the method logs
"Ignoring report_status call" and returns at line 958, before the
reconciliation loop; the code below that early return (diffing snapshots,
calling update_status, clearing pending flags) is unreachable. The second
component is the batch passed to agent_rpc.update_status — never sent, so
it is empty and the state is unchanged. -/
def report_status (st : ReportDriverState) : ReportDriverState × List ProcessStatus :=
  (st, [])

end Csr

namespace Swan

/-- The character class `[a-f0-9\-]` of the connection-id capture group in
the status regex (line 294). -/
def isStatusChar (c : Char) : Bool :=
  ('a' ≤ c && c ≤ 'f') || ('0' ≤ c && c ≤ '9') || (c == '-')

/-- The two state keywords of the regex alternation `(unrouted|erouted)`
(line 294). -/
inductive RouteKeyword
  | unrouted
  | erouted
  deriving DecidableEq

/-- Keyword text. -/
def kwString : RouteKeyword → String
  | .unrouted => "unrouted"
  | .erouted => "erouted"

/-- The literal tail ` (unrouted|erouted);` the regex requires after the
greedy `.*`: a space, the keyword, and a semicolon. -/
def occPattern (k : RouteKeyword) : List Char :=
  ' ' :: (kwString k).data ++ [';']

/-- List-prefix test (Boolean). -/
def beginsWith : List Char → List Char → Bool
  | [], _ => true
  | _ :: _, [] => false
  | p :: ps, c :: cs => p == c && beginsWith ps cs

/-- Does one of the two keyword tails start at this position? The two
alternatives cannot both match (they differ at their first letter after
the space), so the alternation order is immaterial. -/
def keywordHere (l : List Char) : Option RouteKeyword :=
  if beginsWith (occPattern .unrouted) l then some .unrouted
  else if beginsWith (occPattern .erouted) l then some .erouted
  else none

/-- The keyword of the LAST occurrence of ` (unrouted|erouted);` in the
list: the greedy `.*` of the regex backtracks from the end, so the
rightmost occurrence is the one captured by group 2. -/
def lastKeyword : List Char → Option RouteKeyword
  | [] => none
  | c :: rest =>
    match lastKeyword rest with
    | some k => some k
    | none => keywordHere (c :: rest)

/-- Match of the regex `\d\d\d "([a-f0-9\-]+).* (unrouted|erouted);`
anchored at the head of the list. Three (ASCII) digits, a space and a
quote must be present; group 1 is the maximal nonempty run of
`[a-f0-9\-]` characters (greedy `+`; shrinking the run can never help
because each keyword occurrence starts with a space, which is outside the
class); the rest matches exactly when a keyword occurrence exists in the
remaining suffix, and the greedy `.*` selects the last one. -/
def matchAt : List Char → Option (List Char × RouteKeyword)
  | d1 :: d2 :: d3 :: ' ' :: '"' :: rest =>
    if d1.isDigit && d2.isDigit && d3.isDigit then
      match rest.takeWhile isStatusChar with
      | [] => none
      | c :: cs =>
        match lastKeyword (rest.dropWhile isStatusChar) with
        | some k => some (c :: cs, k)
        | none => none
    else none
  | _ => none

/-- `re.search` over one line: the leftmost start position at which the
pattern matches. -/
def searchLine : List Char → Option (List Char × RouteKeyword)
  | [] => none
  | c :: rest =>
    match matchAt (c :: rest) with
    | some r => some r
    | none => searchLine rest

/-- STATUS_MAP (lines 80-83): erouted is ACTIVE, unrouted is DOWN. -/
def STATUS_MAP : RouteKeyword → VpnStatus
  | .erouted => VpnStatus.ACTIVE
  | .unrouted => VpnStatus.DOWN

/-- The per-process connection_status dict, keyed by the captured
connection id. -/
def ConnMap : Type := List Char → Option ConnStatusEntry

/-- The effect of one loop iteration of _update_connection_status
(lines 293-305) on one line: a non-matching line is skipped; on a match, a
missing entry is first inserted as {'status': None,
'updated_pending_status': False} and then the entry's status is set to
STATUS_MAP[keyword] (an existing entry keeps its pending flag). -/
def update_for_line (m : ConnMap) (line : List Char) : ConnMap :=
  match searchLine line with
  | none => m
  | some (cid, k) =>
    let entry :=
      match m cid with
      | none => ({ status := none, updated_pending_status := false } : ConnStatusEntry)
      | some e => e
    fun x => if x = cid then some { entry with status := some (STATUS_MAP k) } else m x

/-- Python str.split('\n'). -/
def splitLines : List Char → List (List Char)
  | [] => [[]]
  | c :: rest =>
    if c = '\n' then [] :: splitLines rest
    else
      match splitLines rest with
      | [] => [[c]]
      | l :: ls => (c :: l) :: ls

/-- BaseSwanProcess._update_connection_status (lines 292-305): fold the
per-line update over the daemon status text split at newlines. -/
def update_connection_status (m : ConnMap) (status_output : List Char) : ConnMap :=
  (splitLines status_output).foldl update_for_line m

end Swan

namespace Csr

/-- The five action suffixes used by do_create_action / do_rollback
(create_ipsec_site_connection, lines 824-836): create_<action> /
delete_<action> on the REST client. -/
inductive CsrAction
  | pre_shared_key
  | ike_policy
  | ipsec_policy
  | ipsec_connection
  | static_route
  deriving DecidableEq

/-- Whether a REST call was a create_<action> or a delete_<action>. -/
inductive CallKind
  | create
  | delete
  deriving DecidableEq

/-- The five payload dicts built before provisioning (lines 631-732),
with the hard-coded values of the source kept as fields. -/
inductive CsrPayload
  | psk (keyring_name : String) (key : String) (peer_address : String)
  | ikePolicy (version : CsrVal) (priority_id : String)
      (encryption : CsrVal) (hash : CsrVal) (dhGroup : CsrVal) (lifetime : Int)
  | ipsecPolicy (policy_id : String) (esp_encryption : CsrVal)
      (esp_authentication : CsrVal) (ah : CsrVal) (lifetime_sec : Int)
      (pfs : CsrVal) (anti_replay_window_size : String)
  | siteConn (vpn_interface_name : String) (ipsec_policy_id : String)
      (local_ip : String) (local_tunnel_ip : String)
      (remote_tunnel_ip : String) (mtu : Nat)
  | routeDict (destination_network : String) (outgoing_interface : String)
  deriving DecidableEq

/-- A Python value passed to do_create_action as `info` or `resource_id`:
normally the payload dict goes to `info` and an id string to
`resource_id`, but the static-route loop (line 834) passes them the other
way around, so both positions must carry either. -/
inductive PyVal
  | str (s : String)
  | payload (p : CsrPayload)
  deriving DecidableEq

/-- One REST call issued to the CSR client: its kind, action and the
argument passed (create_<action>(info) or delete_<action>(resource_id)). -/
structure CsrCall where
  kind : CallKind
  action : CsrAction
  arg : PyVal
  deriving DecidableEq

/-- RollbackStep (line 85): namedtuple('RollbackStep',
['action', 'resource_id', 'title']). -/
structure RollbackStep where
  action : CsrAction
  resource_id : PyVal
  title : String
  deriving DecidableEq

/-- The four arguments of one do_create_action call (lines 746-756). -/
structure CreateItem where
  action : CsrAction
  info : PyVal
  resource_id : PyVal
  title : String
  deriving DecidableEq

/-- The driver state touched by the provisioning paths: the number of REST
calls made so far (indexing the response oracle), the ordered trace of
calls with the status each returned, the in-flight step log `self.steps`,
and the persisted `self.connections` map. -/
structure ProvState where
  nCalls : Nat
  calls : List (CsrCall × Nat)
  steps : List RollbackStep
  connections : String → Option (List RollbackStep)

/-- wexc.HTTPCreated.code. -/
def HTTPCreated : Nat := 201

/-- wexc.HTTPNoContent.code. -/
def HTTPNoContent : Nat := 204

/-- wexc.HTTPNotFound.code. -/
def HTTPNotFound : Nat := 404

/-- do_create_action (lines 746-756) together with _check_create
(lines 734-744): issue create_<action>(info) — the CSR client (outside
this module) defines all five create methods, so the AttributeError branch
cannot fire — read self.csr.status from the response oracle, and either
append RollbackStep(action, resource_id, title) on HTTPCreated or raise
CsrResourceCreateFailure, carried here as the error state. -/
def do_create_action (resp : Nat → Nat) (it : CreateItem) (st : ProvState) :
    Except ProvState ProvState :=
  let s := resp st.nCalls
  let st1 : ProvState :=
    { st with nCalls := st.nCalls + 1,
              calls := st.calls ++ [({ kind := .create, action := it.action,
                                       arg := it.info }, s)] }
  if s = HTTPCreated then
    .ok { st1 with steps := st1.steps ++ [{ action := it.action,
                                            resource_id := it.resource_id,
                                            title := it.title }] }
  else
    .error st1

/-- The sequence of do_create_action calls of
create_ipsec_site_connection's second try block (lines 822-836), in
source order; CsrResourceCreateFailure aborts the rest of the sequence. -/
def runCreates (resp : Nat → Nat) : List CreateItem → ProvState → Except ProvState ProvState
  | [], st => .ok st
  | it :: rest, st =>
    match do_create_action resp it st with
    | .ok st1 => runCreates resp rest st1
    | .error st1 => .error st1

/-- _verify_deleted (lines 758-766): a delete status of HTTPNoContent or
HTTPNotFound counts as removed (debug log); anything else is only warned
about — in neither case does the method raise. -/
def verify_deleted (status : Nat) : Bool :=
  status = HTTPNoContent || status = HTTPNotFound

/-- The loop body of do_rollback (lines 769-778) over an already-reversed
step list: issue delete_<action>(step.resource_id) for every step — the
client defines all five delete methods, so the AttributeError branch
cannot fire — and pass the resulting status to _verify_deleted, which
never raises, so the walk always completes. -/
def rollbackSteps (resp : Nat → Nat) : List RollbackStep → ProvState → ProvState
  | [], st => st
  | s :: rest, st =>
    rollbackSteps resp rest
      { st with nCalls := st.nCalls + 1,
                calls := st.calls ++ [({ kind := .delete, action := s.action,
                                         arg := s.resource_id }, resp st.nCalls)] }

/-- do_rollback (lines 768-779): walk self.steps in reversed order issuing
the corresponding deletes, then set self.steps to a fresh empty list
(which, in the source, does NOT clear the list object possibly shared
with self.connections). -/
def do_rollback (resp : Nat → Nat) (st : ProvState) : ProvState :=
  { rollbackSteps resp st.steps.reverse st with steps := [] }

/-- conn_info['site_conn'] as read by the driver (lines 633-638, 702-732,
793). -/
structure SiteConnInfo where
  id : String
  psk : String
  peer_address : String
  mtu : Nat
  peer_cidrs : List String
  deriving DecidableEq

/-- conn_info['cisco'] (lines 699, 798-800). router_public_ip is None (or
empty, both falsy) when the router gateway is undefined. -/
structure CiscoInfo where
  site_conn_id : String
  ike_policy_id : String
  ipsec_policy_id : String
  router_public_ip : Option String
  deriving DecidableEq

/-- The conn_info dict received by create_ipsec_site_connection: the keys
the driver reads ('site_conn', 'cisco', 'ike_policy', 'ipsec_policy'). -/
structure ConnInfo where
  site_conn : SiteConnInfo
  cisco : CiscoInfo
  ike_policy : PolicyInfo
  ipsec_policy : PolicyInfo
  deriving DecidableEq

/-- create_psk_info (lines 631-638). -/
def create_psk_info (psk_id : String) (info : ConnInfo) : CsrPayload :=
  .psk psk_id info.site_conn.psk info.site_conn.peer_address

/-- create_ike_policy_info (lines 640-663): translate ike_version,
encryption_algorithm, auth_algorithm and pfs, validate the lifetime. -/
def create_ike_policy_info (ike_policy_id : String) (conn_info : ConnInfo) :
    Except CsrError CsrPayload := do
  let policy_info := conn_info.ike_policy
  let version ← translate_dialect .ike_policy "ike_version" policy_info.attrs
  let encrypt_algorithm ← translate_dialect .ike_policy "encryption_algorithm" policy_info.attrs
  let auth_algorithm ← translate_dialect .ike_policy "auth_algorithm" policy_info.attrs
  let group ← translate_dialect .ike_policy "pfs" policy_info.attrs
  let lifetime ← validate_lifetime .ike_policy policy_info
  pure (.ikePolicy version ike_policy_id encrypt_algorithm auth_algorithm group lifetime)

/-- create_ipsec_policy_info (lines 665-696): translate
transform_protocol, auth_algorithm, encryption_algorithm and pfs, validate
the lifetime; the anti-replay-window-size is hard-coded to "128". -/
def create_ipsec_policy_info (ipsec_policy_id : String) (info : ConnInfo) :
    Except CsrError CsrPayload := do
  let policy_info := info.ipsec_policy
  let transform_protocol ← translate_dialect .ipsec_policy "transform_protocol" policy_info.attrs
  let auth_algorithm ← translate_dialect .ipsec_policy "auth_algorithm" policy_info.attrs
  let encrypt_algorithm ← translate_dialect .ipsec_policy "encryption_algorithm" policy_info.attrs
  let group ← translate_dialect .ipsec_policy "pfs" policy_info.attrs
  let lifetime ← validate_lifetime .ipsec_policy policy_info
  pure (.ipsecPolicy ipsec_policy_id encrypt_algorithm auth_algorithm
    transform_protocol lifetime group "128")

/-- create_site_connection_info (lines 698-718): a falsy
router_public_ip raises CsrValidationFailure; the local interface and
tunnel address are hard-coded in the source. -/
def create_site_connection_info (site_conn_id : String) (ipsec_policy_id : String)
    (info : ConnInfo) : Except CsrError CsrPayload :=
  match info.cisco.router_public_ip with
  | none => .error (.validationFailure "Router" "router-gateway" (.s "undefined"))
  | some _ =>
    .ok (.siteConn site_conn_id ipsec_policy_id "GigabitEthernet3" "172.24.4.23"
      info.site_conn.peer_address info.site_conn.mtu)

/-- create_routes_info (lines 720-732): empty peer_cidrs raises
CsrValidationFailure; otherwise one (route_id, route) pair per peer CIDR,
with the route id computed by the REST client's make_route_id (outside
this module, passed in as `mk`). -/
def create_routes_info (mk : String → String → String) (site_conn_id : String)
    (info : ConnInfo) : Except CsrError (List (String × CsrPayload)) :=
  if info.site_conn.peer_cidrs = [] then
    .error (.validationFailure "IPSec Site Connection" "peer-cidrs" (.s "undefined"))
  else
    .ok (info.site_conn.peer_cidrs.map
      (fun peer_cidr => (mk peer_cidr site_conn_id, .routeDict peer_cidr site_conn_id)))

/-- The five payloads built by the first try block of
create_ipsec_site_connection (lines 805-820). -/
structure BuiltPayloads where
  psk_info : CsrPayload
  ike_policy_info : CsrPayload
  ipsec_policy_info : CsrPayload
  connection_info : CsrPayload
  routes_info : List (String × CsrPayload)
  deriving DecidableEq

/-- The payload-building phase (lines 805-820): any
CsrDriverImplementationError or CsrValidationFailure aborts the whole
operation before any REST call. -/
def buildPayloads (mk : String → String → String) (ci : ConnInfo) :
    Except CsrError BuiltPayloads := do
  let psk_info := create_psk_info ci.site_conn.id ci
  let ike_policy_info ← create_ike_policy_info ci.cisco.ike_policy_id ci
  let ipsec_policy_info ← create_ipsec_policy_info ci.cisco.ipsec_policy_id ci
  let connection_info ← create_site_connection_info ci.cisco.site_conn_id
    ci.cisco.ipsec_policy_id ci
  let routes_info ← create_routes_info mk ci.cisco.site_conn_id ci
  pure ⟨psk_info, ike_policy_info, ipsec_policy_info, connection_info, routes_info⟩

/-- The ordered do_create_action argument list of the second try block
(lines 824-836). NOTE the static-route loop of the source,
`for route_info, route_id in routes_info`, unpacks the (route_id, route)
pairs built by create_routes_info in swapped order: `info` receives the
route id string and `resource_id` receives the route dict. -/
def createItems (ci : ConnInfo) (pb : BuiltPayloads) : List CreateItem :=
  [{ action := .pre_shared_key, info := .payload pb.psk_info,
     resource_id := .str ci.site_conn.id, title := "Pre-Shared Key" },
   { action := .ike_policy, info := .payload pb.ike_policy_info,
     resource_id := .str ci.cisco.ike_policy_id, title := "IKE Policy" },
   { action := .ipsec_policy, info := .payload pb.ipsec_policy_info,
     resource_id := .str ci.cisco.ipsec_policy_id, title := "IPSec Policy" },
   { action := .ipsec_connection, info := .payload pb.connection_info,
     resource_id := .str ci.cisco.site_conn_id, title := "IPSec Connection" }]
  ++ pb.routes_info.map (fun p =>
      { action := .static_route, info := .str p.1,
        resource_id := .payload p.2, title := "Static Route" })

/-- create_ipsec_site_connection (lines 782-845): build the payloads
(returning on either build error, with no REST call made), reset
self.steps to empty, run the create sequence; on CsrResourceCreateFailure
invoke do_rollback, otherwise persist self.steps in self.connections
under the connection id. -/
def create_ipsec_site_connection (resp : Nat → Nat) (mk : String → String → String)
    (ci : ConnInfo) (st : ProvState) : ProvState :=
  match buildPayloads mk ci with
  | .error _ => st
  | .ok pb =>
    match runCreates resp (createItems ci pb) { st with steps := [] } with
    | .error stf => do_rollback resp stf
    | .ok stf =>
      { stf with connections := fun x =>
          if x = ci.site_conn.id then some stf.steps else stf.connections x }

/-- delete_ipsec_site_connection (lines 847-863): set self.steps to the
persisted log for the connection id (or []); when empty only a warning is
logged, otherwise do_rollback runs. The source never removes the
connections map entry, and do_rollback only rebinds self.steps, so the
persisted log survives the delete. -/
def delete_ipsec_site_connection (resp : Nat → Nat) (ci : ConnInfo) (st : ProvState) :
    ProvState :=
  let conn_id := ci.site_conn.id
  let steps := (st.connections conn_id).getD []
  let st1 : ProvState := { st with steps := steps }
  if steps = [] then st1 else do_rollback resp st1

/-- The create call record of one CreateItem. -/
def toCreateCall (it : CreateItem) : CsrCall :=
  { kind := .create, action := it.action, arg := it.info }

/-- The rollback step recorded for one CreateItem. -/
def toStep (it : CreateItem) : RollbackStep :=
  { action := it.action, resource_id := it.resource_id, title := it.title }

/-- The create-call trace of a run of items starting at call index
`base`, each paired with its oracle status. -/
def createCallListI (resp : Nat → Nat) (base : Nat) : List CreateItem → List (CsrCall × Nat)
  | [] => []
  | it :: rest => (toCreateCall it, resp base) :: createCallListI resp (base + 1) rest

/-- The delete-call trace of a rollback walk starting at call index
`base`. -/
def deleteCallList (resp : Nat → Nat) (base : Nat) : List RollbackStep → List (CsrCall × Nat)
  | [] => []
  | s :: rest =>
    ({ kind := .delete, action := s.action, arg := s.resource_id }, resp base)
      :: deleteCallList resp (base + 1) rest

/-- A concrete valid conn_info used as evaluation input. -/
def sampleConnInfo : ConnInfo :=
  { site_conn := { id := "conn1", psk := "secret", peer_address := "10.10.10.10",
                   mtu := 1500, peer_cidrs := ["10.2.0.0/24"] },
    cisco := { site_conn_id := "Tunnel0", ike_policy_id := "2",
               ipsec_policy_id := "8", router_public_ip := some "172.24.4.23" },
    ike_policy := { attrs := [("ike_version", "v1"), ("encryption_algorithm", "3des"),
                              ("auth_algorithm", "sha1"), ("pfs", "group2")],
                    lifetime := some { units := some "seconds", value := some 3600 } },
    ipsec_policy := { attrs := [("transform_protocol", "esp"),
                                ("auth_algorithm", "sha1"),
                                ("encryption_algorithm", "3des"), ("pfs", "group2")],
                      lifetime := some { units := some "seconds", value := some 3600 } } }

/-- Response oracle returning HTTPCreated for every call. -/
def sampleResp : Nat → Nat := fun _ => 201

/-- A concrete make_route_id. -/
def sampleMk : String → String → String := fun cidr tunnel => cidr ++ "_" ++ tunnel

/-- A fresh driver state. -/
def sampleSt0 : ProvState :=
  { nCalls := 0, calls := [], steps := [], connections := fun _ => none }

/-- State after a fully successful create of sampleConnInfo. -/
def sampleSt1 : ProvState :=
  create_ipsec_site_connection sampleResp sampleMk sampleConnInfo sampleSt0

/-- State after the first delete of the same connection. -/
def sampleSt2 : ProvState :=
  delete_ipsec_site_connection sampleResp sampleConnInfo sampleSt1

/-- State after a second delete of the same connection. -/
def sampleSt3 : ProvState :=
  delete_ipsec_site_connection sampleResp sampleConnInfo sampleSt2

end Csr

namespace Csr

/-- The payloads buildPayloads produces for sampleConnInfo. -/
def samplePayloads : BuiltPayloads :=
  { psk_info := .psk "conn1" "secret" "10.10.10.10",
    ike_policy_info := .ikePolicy (.s "v1") "2" (.s "3des") (.s "sha") (.n 2) 3600,
    ipsec_policy_info := .ipsecPolicy "8" (.s "esp-3des") (.s "esp-sha-hmac")
      (.s "ah-sha-hmac") 3600 (.s "group2") "128",
    connection_info := .siteConn "Tunnel0" "8" "GigabitEthernet3" "172.24.4.23"
      "10.10.10.10" 1500,
    routes_info := [("10.2.0.0/24_Tunnel0", .routeDict "10.2.0.0/24" "Tunnel0")] }

/-- A state holding two recorded rollback steps, used to evaluate
do_rollback concretely. -/
def sampleRollbackState : ProvState :=
  { nCalls := 0, calls := [],
    steps := [{ action := .ike_policy, resource_id := .str "2", title := "IKE Policy" },
              { action := .pre_shared_key, resource_id := .str "conn1",
                title := "Pre-Shared Key" }],
    connections := fun _ => none }

end Csr

-- ===== END DEFINITIONS =====

-- ===== THEOREMS =====

namespace Csr

/-- Claim C5: translate_dialect raises CsrDriverImplementationError exactly
when the attr is absent from the input dict; when present, the
lower-cased value is looked up in the resource-scoped DIALECT_MAP and the
mapped value returned on a hit, while a miss raises the distinct
CsrValidationFailure, so the two error kinds are distinguishable by
exception type. -/
theorem claim_C5_translate_dialect_errors :
    ∀ (r : DialectResource) (attr : String) (info : List (String × String)),
    (dictGet info attr = none →
      translate_dialect r attr info
        = Except.error (CsrError.implementationError (dialectName r) attr))
    ∧ (∀ raw w, dictGet info attr = some raw →
        dictGet (DIALECT_MAP r) (pyLower raw) = some w →
        translate_dialect r attr info = Except.ok w)
    ∧ (∀ raw, dictGet info attr = some raw →
        dictGet (DIALECT_MAP r) (pyLower raw) = none →
        translate_dialect r attr info
          = Except.error (CsrError.validationFailure (dialectName r) attr
              (CsrVal.s (pyLower raw))))
    ∧ ((∃ res a, translate_dialect r attr info
          = Except.error (CsrError.implementationError res a))
        ↔ dictGet info attr = none) := by
  intro r attr info
  refine ⟨?_, ?_, ?_, ?_⟩
  · intro h
    simp [translate_dialect, h]
  · intro raw w h hw
    simp [translate_dialect, h, hw]
  · intro raw h hw
    simp [translate_dialect, h, hw]
  · constructor
    · rintro ⟨res, a, h⟩
      cases hd : dictGet info attr with
      | none => rfl
      | some raw =>
        exfalso
        cases hw : dictGet (DIALECT_MAP r) (pyLower raw) with
        | none => simp [translate_dialect, hd, hw] at h
        | some w => simp [translate_dialect, hd, hw] at h
    · intro h
      exact ⟨dialectName r, attr, by simp [translate_dialect, h]⟩

/-- Witness for C5 at concrete inputs: a present supported value maps
("Group2" lowers to "group2" and maps to 2), a missing key raises the
implementation error, and an unsupported value ("des") raises the
validation failure. -/
theorem claim_C5_witness :
    translate_dialect DialectResource.ike_policy "pfs" [("pfs", "Group2")]
      = Except.ok (CsrVal.n 2)
    ∧ translate_dialect DialectResource.ike_policy "pfs" []
      = Except.error (CsrError.implementationError "IKE Policy" "pfs")
    ∧ translate_dialect DialectResource.ike_policy "encryption_algorithm"
        [("encryption_algorithm", "des")]
      = Except.error (CsrError.validationFailure "IKE Policy"
          "encryption_algorithm" (CsrVal.s "des")) :=
  ⟨(claim_C5_translate_dialect_errors DialectResource.ike_policy "pfs"
      [("pfs", "Group2")]).2.1 "Group2" (CsrVal.n 2) (by decide) (by decide),
   (claim_C5_translate_dialect_errors DialectResource.ike_policy "pfs" []).1 (by decide),
   (claim_C5_translate_dialect_errors DialectResource.ike_policy "encryption_algorithm"
      [("encryption_algorithm", "des")]).2.2.1 "des" (by decide) (by decide)⟩

/-- Claim C6: validate_lifetime returns the value unchanged exactly when the
units are 'seconds' and the value lies in the closed per-resource interval
(IKE [60, 86400], IPsec [120, 2592000]); a wrong unit or out-of-range value
raises the validation failure and a missing lifetime/units/value field
raises the implementation error. -/
theorem claim_C6_validate_lifetime :
    ∀ (r : DialectResource) (pi : PolicyInfo),
    (LIFETIME_MAP_min DialectResource.ike_policy = 60
      ∧ LIFETIME_MAP_max DialectResource.ike_policy = 86400
      ∧ LIFETIME_MAP_min DialectResource.ipsec_policy = 120
      ∧ LIFETIME_MAP_max DialectResource.ipsec_policy = 2592000)
    ∧ (pi.lifetime = none →
        validate_lifetime r pi
          = Except.error (CsrError.implementationError (dialectName r) "lifetime"))
    ∧ (∀ li, pi.lifetime = some li → li.units = none →
        validate_lifetime r pi
          = Except.error (CsrError.implementationError (dialectName r) "lifetime:units"))
    ∧ (∀ li u, pi.lifetime = some li → li.units = some u → u ≠ "seconds" →
        validate_lifetime r pi
          = Except.error (CsrError.validationFailure (dialectName r) "lifetime:units"
              (CsrVal.s u)))
    ∧ (∀ li, pi.lifetime = some li → li.units = some "seconds" → li.value = none →
        validate_lifetime r pi
          = Except.error (CsrError.implementationError (dialectName r) "lifetime:value"))
    ∧ (∀ li v, pi.lifetime = some li → li.units = some "seconds" → li.value = some v →
        ¬(LIFETIME_MAP_min r ≤ v ∧ v ≤ LIFETIME_MAP_max r) →
        validate_lifetime r pi
          = Except.error (CsrError.validationFailure (dialectName r) "lifetime:value"
              (CsrVal.n v)))
    ∧ (∀ li v, pi.lifetime = some li → li.units = some "seconds" → li.value = some v →
        (validate_lifetime r pi = Except.ok v
          ↔ (LIFETIME_MAP_min r ≤ v ∧ v ≤ LIFETIME_MAP_max r))) := by
  intro r pi
  refine ⟨by decide, ?_, ?_, ?_, ?_, ?_, ?_⟩
  · intro h
    simp [validate_lifetime, h]
  · intro li h hu
    simp [validate_lifetime, h, hu]
  · intro li u h hu hne
    simp [validate_lifetime, h, hu, hne]
  · intro li h hu hv
    simp [validate_lifetime, h, hu, hv]
  · intro li v h hu hv hrange
    simp [validate_lifetime, h, hu, hv, hrange]
  · intro li v h hu hv
    constructor
    · intro hok
      by_contra hrange
      simp [validate_lifetime, h, hu, hv, hrange] at hok
    · intro hrange
      simp [validate_lifetime, h, hu, hv, hrange]

/-- Witness for C6: both IKE boundaries are accepted unchanged, 59 is
rejected as a validation failure, a wrong unit is a validation failure, and
a missing value is an implementation error; the IPsec boundaries 120 and
2592000 are accepted. -/
theorem claim_C6_witness :
    validate_lifetime DialectResource.ike_policy
      ⟨[], some ⟨some "seconds", some 60⟩⟩ = Except.ok 60
    ∧ validate_lifetime DialectResource.ike_policy
      ⟨[], some ⟨some "seconds", some 86400⟩⟩ = Except.ok 86400
    ∧ validate_lifetime DialectResource.ike_policy
      ⟨[], some ⟨some "seconds", some 59⟩⟩
        = Except.error (CsrError.validationFailure "IKE Policy" "lifetime:value"
            (CsrVal.n 59))
    ∧ validate_lifetime DialectResource.ike_policy
      ⟨[], some ⟨some "minutes", some 100⟩⟩
        = Except.error (CsrError.validationFailure "IKE Policy" "lifetime:units"
            (CsrVal.s "minutes"))
    ∧ validate_lifetime DialectResource.ike_policy
      ⟨[], some ⟨some "seconds", none⟩⟩
        = Except.error (CsrError.implementationError "IKE Policy" "lifetime:value")
    ∧ validate_lifetime DialectResource.ipsec_policy
      ⟨[], some ⟨some "seconds", some 120⟩⟩ = Except.ok 120
    ∧ validate_lifetime DialectResource.ipsec_policy
      ⟨[], some ⟨some "seconds", some 2592000⟩⟩ = Except.ok 2592000 :=
  ⟨((claim_C6_validate_lifetime DialectResource.ike_policy
      ⟨[], some ⟨some "seconds", some 60⟩⟩).2.2.2.2.2.2 _ 60 rfl rfl rfl).2 (by decide),
   ((claim_C6_validate_lifetime DialectResource.ike_policy
      ⟨[], some ⟨some "seconds", some 86400⟩⟩).2.2.2.2.2.2 _ 86400 rfl rfl rfl).2 (by decide),
   (claim_C6_validate_lifetime DialectResource.ike_policy
      ⟨[], some ⟨some "seconds", some 59⟩⟩).2.2.2.2.2.1 _ 59 rfl rfl rfl (by decide),
   (claim_C6_validate_lifetime DialectResource.ike_policy
      ⟨[], some ⟨some "minutes", some 100⟩⟩).2.2.2.1 _ "minutes" rfl rfl (by decide),
   (claim_C6_validate_lifetime DialectResource.ike_policy
      ⟨[], some ⟨some "seconds", none⟩⟩).2.2.2.2.1 _ rfl rfl rfl,
   ((claim_C6_validate_lifetime DialectResource.ipsec_policy
      ⟨[], some ⟨some "seconds", some 120⟩⟩).2.2.2.2.2.2 _ 120 rfl rfl rfl).2 (by decide),
   ((claim_C6_validate_lifetime DialectResource.ipsec_policy
      ⟨[], some ⟨some "seconds", some 2592000⟩⟩).2.2.2.2.2.2 _ 2592000 rfl rfl rfl).2
        (by decide)⟩

end Csr

namespace Swan

theorem dictGet_mem {α : Type} :
    ∀ (m : List (String × α)) (k : String) (v : α),
    Csr.dictGet m k = some v → (k, v) ∈ m := by
  intro m
  induction m with
  | nil => intro k v h; simp [Csr.dictGet] at h
  | cons p rest ih =>
    intro k v h
    by_cases hk : k = p.1
    · subst hk
      simp [Csr.dictGet] at h
      rw [← h]
      exact List.mem_cons_self p rest
    · right
      apply ih
      simpa [Csr.dictGet, hk] using h

theorem dialectGet_idem : ∀ v, dialectGet (dialectGet v) = dialectGet v := by
  intro v
  cases h : Csr.dictGet DIALECT_MAP v with
  | none =>
    have hv : dialectGet v = v := by simp [dialectGet, h]
    rw [hv, hv]
  | some w =>
    have hv : dialectGet v = w := by simp [dialectGet, h]
    rw [hv]
    have hw : (v, w) ∈ DIALECT_MAP := dictGet_mem DIALECT_MAP v w h
    have hvals : ∀ p ∈ DIALECT_MAP, dialectGet p.2 = p.2 := by decide
    exact hvals (v, w) hw

theorem translateConn_idem :
    ∀ c, translateConn (translateConn c) = translateConn c := by
  intro c
  simp [translateConn, dialectGet_idem]

/-- Claim C10: BaseSwanProcess.translate_dialect is total (a function on
service descriptions, so it raises on none of them) and idempotent; each
value that is a key of the process-level DIALECT_MAP is replaced by the
mapped value, and any other value passes through unchanged. -/
theorem claim_C10_swan_translate_idempotent :
    ∀ (svc : Option VpnService),
    translate_dialect (translate_dialect svc) = translate_dialect svc
    ∧ (∀ v w, (v, w) ∈ DIALECT_MAP → dialectGet v = w)
    ∧ (∀ v, Csr.dictGet DIALECT_MAP v = none → dialectGet v = v) := by
  intro svc
  refine ⟨?_, ?_, ?_⟩
  · cases svc with
    | none => rfl
    | some s =>
      simp [translate_dialect, Function.comp_def, translateConn_idem]
  · have hkeys : ∀ p ∈ DIALECT_MAP, dialectGet p.1 = p.2 := by decide
    intro v w hw
    exact hkeys (v, w) hw
  · intro v h
    simp [dialectGet, h]

/-- Witness for C10 at a concrete service description: translating twice
equals translating once, "group2" (a key) maps to "modp1024", and
"sha1" (not a key) passes through unchanged. -/
theorem claim_C10_witness :
    translate_dialect (translate_dialect
      (some ⟨[⟨"bi-directional", ⟨"v1", "aes-128", "sha1", "group2"⟩,
              ⟨"aes-128", "sha1", "group5"⟩⟩]⟩))
      = translate_dialect
      (some ⟨[⟨"bi-directional", ⟨"v1", "aes-128", "sha1", "group2"⟩,
              ⟨"aes-128", "sha1", "group5"⟩⟩]⟩)
    ∧ dialectGet "group2" = "modp1024"
    ∧ dialectGet "sha1" = "sha1" :=
  ⟨(claim_C10_swan_translate_idempotent
      (some ⟨[⟨"bi-directional", ⟨"v1", "aes-128", "sha1", "group2"⟩,
              ⟨"aes-128", "sha1", "group5"⟩⟩]⟩)).1,
   (claim_C10_swan_translate_idempotent none).2.1 "group2" "modp1024" (by decide),
   (claim_C10_swan_translate_idempotent none).2.2 "sha1" (by decide)⟩

/-- Counterexample to claim C8 as stated: when the process is active and
stop() raises, the rendered configuration directory is NOT removed (the
except block only logs), although no exception reaches the caller. -/
theorem claim_C8_cex :
    (disable true true).config_removed = false
    ∧ (disable true true).stop_called = true
    ∧ (disable true true).raised = false := by
  decide

/-- Claim C8 (amended): disable() never lets RuntimeError (the only error
its operations raise) reach its caller and calls stop() exactly when the
process is active; the configuration directory is removed exactly when
stop() did not raise — a stop() failure skips the removal. -/
theorem claim_C8_amended :
    ∀ (active stop_raises : Bool),
    (disable active stop_raises).raised = false
    ∧ (disable active stop_raises).stop_called = active
    ∧ (disable active stop_raises).config_removed = !(active && stop_raises) := by
  decide

end Swan

namespace Csr

/-- Counterexample to claim C9 as stated: a tracked process whose
pending-update flag is set (so is_status_updated holds against its cached
snapshot) is NOT reported — report_status emits no batch and leaves the
process and cache unchanged, because the method returns before the
reconciliation loop. -/
theorem claim_C9_cex :
    is_status_updated ⟨"r1", "vs1", true, VpnStatus.DOWN, []⟩
      (get_process_status_cache (fun _ => none)
        ⟨"r1", "vs1", true, VpnStatus.DOWN, []⟩).1 = true
    ∧ report_status ⟨[⟨"r1", "vs1", true, VpnStatus.DOWN, []⟩], fun _ => none⟩
      = (⟨[⟨"r1", "vs1", true, VpnStatus.DOWN, []⟩], fun _ => none⟩, []) :=
  ⟨rfl, rfl⟩

/-- Claim C9 (amended): report_status returns immediately (line 958),
sending no update batch and changing no state — even when some tracked
process's status or pending flag has changed since its cached snapshot;
the changed-subset reconciliation exists only as unreachable code. -/
theorem claim_C9_amended :
    ∀ (st : ReportDriverState),
    (report_status st).1 = st
    ∧ (report_status st).2 = []
    ∧ (∀ p, p ∈ st.processes →
        is_status_updated p (get_process_status_cache st.process_status_cache p).1 = true →
        (report_status st).2 = []) :=
  fun _ => ⟨rfl, rfl, fun _ _ _ => rfl⟩

/-- Witness for C9 (amended) at a concrete driver state with one changed
process. -/
theorem claim_C9_witness :
    (report_status ⟨[⟨"r2", "vs2", true, VpnStatus.ACTIVE, []⟩], fun _ => none⟩).2 = [] :=
  (claim_C9_amended ⟨[⟨"r2", "vs2", true, VpnStatus.ACTIVE, []⟩], fun _ => none⟩).2.1

end Csr

namespace Swan

/-- Counterexample to claim C4 as stated: on the spec's example line
`005 "conn-1" ... erouted;` the capture group `[a-f0-9\-]+` stops at the
first character outside the class ('o'), so the driver records connection
'c' as ACTIVE and records nothing under 'conn-1'. -/
theorem claim_C4_cex :
    update_connection_status (fun _ => none)
      ("005 \"conn-1\" ... erouted;").data ("conn-1").data = none
    ∧ update_connection_status (fun _ => none)
      ("005 \"conn-1\" ... erouted;").data ("c").data
      = some { status := some VpnStatus.ACTIVE, updated_pending_status := false } := by
  constructor
  · rfl
  · rfl

end Swan

namespace Swan

theorem takeWhile_statusRun :
    ∀ (cid t : List Char), (∀ c ∈ cid, isStatusChar c = true) →
    (cid ++ '"' :: t).takeWhile isStatusChar = cid
    ∧ (cid ++ '"' :: t).dropWhile isStatusChar = '"' :: t := by
  intro cid
  induction cid with
  | nil =>
    intro t _
    have hq : isStatusChar '"' = false := by decide
    constructor
    · simp [List.takeWhile_cons, hq]
    · simp [List.dropWhile_cons, hq]
  | cons c cs ih =>
    intro t hall
    have hc : isStatusChar c = true := hall c (List.mem_cons_self c cs)
    have hrest := ih t (fun x hx => hall x (List.mem_cons_of_mem c hx))
    constructor
    · simp [List.takeWhile_cons, hc, hrest.1]
    · simp [List.dropWhile_cons, hc, hrest.2]

theorem splitLines_no_newline :
    ∀ (l : List Char), (∀ c ∈ l, c ≠ '\n') → splitLines l = [l] := by
  intro l
  induction l with
  | nil => intro _; rfl
  | cons c rest ih =>
    intro h
    have hc : c ≠ '\n' := h c (List.mem_cons_self c rest)
    have hrest := ih (fun x hx => h x (List.mem_cons_of_mem c hx))
    simp [splitLines, hc, hrest]

/-- Claim C4 (amended): a status line of the form three ASCII digits,
space, quote, connection id, closing quote, space, keyword, semicolon is
recorded under the captured connection id — which is the maximal run of
characters from the class a-f, 0-9, dash after the opening quote, so an id
made only of such characters is captured whole (the spec's example
`conn-1` is instead truncated to `c`, see the counterexample) — with
status ACTIVE for erouted and DOWN for unrouted; an id not yet tracked is
inserted with a null status and false pending flag before its status is
set, an already-tracked id keeps its pending flag; any line the pattern
does not match anywhere is ignored without effect. -/
theorem claim_C4_amended :
    ∀ (m : ConnMap) (d1 d2 d3 : Char) (cid : List Char) (kw : RouteKeyword),
    d1.isDigit = true → d2.isDigit = true → d3.isDigit = true →
    cid ≠ [] → (∀ c ∈ cid, isStatusChar c = true) →
    searchLine (d1 :: d2 :: d3 :: ' ' :: '"' ::
        (cid ++ '"' :: ' ' :: ((kwString kw).data ++ [';']))) = some (cid, kw)
    ∧ update_connection_status m (d1 :: d2 :: d3 :: ' ' :: '"' ::
        (cid ++ '"' :: ' ' :: ((kwString kw).data ++ [';'])))
      = (fun x => if x = cid then
            some { status := some (STATUS_MAP kw),
                   updated_pending_status :=
                     (m cid).elim false (fun e => e.updated_pending_status) }
          else m x)
    ∧ (∀ line, searchLine line = none → update_for_line m line = m) := by
  intro m d1 d2 d3 cid kw h1 h2 h3 hne hall
  have htail := takeWhile_statusRun cid (' ' :: ((kwString kw).data ++ [';'])) hall
  have hlast : lastKeyword ('"' :: ' ' :: ((kwString kw).data ++ [';'])) = some kw := by
    cases kw <;> rfl
  have hmatch : matchAt (d1 :: d2 :: d3 :: ' ' :: '"' ::
      (cid ++ '"' :: ' ' :: ((kwString kw).data ++ [';']))) = some (cid, kw) := by
    cases cid with
    | nil => exact absurd rfl hne
    | cons c0 cs =>
      rw [matchAt]
      rw [h1, h2, h3]
      simp only [Bool.and_self, if_true]
      rw [htail.1, htail.2, hlast]
  have hsearch : searchLine (d1 :: d2 :: d3 :: ' ' :: '"' ::
      (cid ++ '"' :: ' ' :: ((kwString kw).data ++ [';']))) = some (cid, kw) := by
    rw [searchLine, hmatch]
  refine ⟨hsearch, ?_, ?_⟩
  · have hnl : ∀ c ∈ (d1 :: d2 :: d3 :: ' ' :: '"' ::
        (cid ++ '"' :: ' ' :: ((kwString kw).data ++ [';']))), c ≠ '\n' := by
      intro c hc
      simp only [List.mem_cons, List.mem_append] at hc
      rcases hc with rfl | rfl | rfl | rfl | rfl | hc
      · intro hq; rw [hq] at h1; exact absurd h1 (by decide)
      · intro hq; rw [hq] at h2; exact absurd h2 (by decide)
      · intro hq; rw [hq] at h3; exact absurd h3 (by decide)
      · decide
      · decide
      · rcases hc with hc | hc
        · intro hq
          have := hall c hc
          rw [hq] at this
          exact absurd this (by decide)
        · rcases hc with rfl | rfl | hc
          · decide
          · decide
          · rcases hc with hk | hc
            · intro hq
              subst hq
              cases kw with
              | unrouted => revert hk; decide
              | erouted => revert hk; decide
            · simp only [List.mem_cons, List.not_mem_nil, or_false] at hc
              subst hc
              decide
    rw [update_connection_status, splitLines_no_newline _ hnl]
    show update_for_line m _ = _
    rw [update_for_line, hsearch]
    cases hm : m cid with
    | none => simp [hm]
    | some e => simp [hm]
  · intro line hnone
    rw [update_for_line, hnone]

/-- Witness for C4 (amended) at a concrete well-formed hex-dash id: line
`005 "ab-1" unrouted;` records connection `ab-1` as DOWN in a previously
empty map. -/
theorem claim_C4_witness :
    searchLine ('0' :: '0' :: '5' :: ' ' :: '"' ::
        (("ab-1").data ++ '"' :: ' ' :: ((kwString RouteKeyword.unrouted).data ++ [';'])))
      = some (("ab-1").data, RouteKeyword.unrouted)
    ∧ update_connection_status (fun _ => none) ('0' :: '0' :: '5' :: ' ' :: '"' ::
        (("ab-1").data ++ '"' :: ' ' :: ((kwString RouteKeyword.unrouted).data ++ [';'])))
        (("ab-1").data)
      = some { status := some VpnStatus.DOWN, updated_pending_status := false } := by
  have h := claim_C4_amended (fun _ => none) '0' '0' '5' ("ab-1").data
    RouteKeyword.unrouted (by decide) (by decide) (by decide) (by decide) (by decide)
  refine ⟨h.1, ?_⟩
  rw [h.2.1]
  simp [STATUS_MAP]

end Swan

namespace Csr

theorem do_create_action_ok (resp : Nat → Nat) (it : CreateItem) (st : ProvState)
    (h : resp st.nCalls = HTTPCreated) :
    do_create_action resp it st = Except.ok
      { st with nCalls := st.nCalls + 1,
                calls := st.calls ++ [(toCreateCall it, resp st.nCalls)],
                steps := st.steps ++ [toStep it] } := by
  simp [do_create_action, toCreateCall, toStep, h]

theorem do_create_action_err (resp : Nat → Nat) (it : CreateItem) (st : ProvState)
    (h : resp st.nCalls ≠ HTTPCreated) :
    do_create_action resp it st = Except.error
      { st with nCalls := st.nCalls + 1,
                calls := st.calls ++ [(toCreateCall it, resp st.nCalls)] } := by
  simp [do_create_action, toCreateCall, h]

theorem runCreates_ok_spec (resp : Nat → Nat) :
    ∀ (items : List CreateItem) (st : ProvState),
    (∀ j, j < items.length → resp (st.nCalls + j) = HTTPCreated) →
    runCreates resp items st = Except.ok
      { nCalls := st.nCalls + items.length,
        calls := st.calls ++ createCallListI resp st.nCalls items,
        steps := st.steps ++ items.map toStep,
        connections := st.connections } := by
  intro items
  induction items with
  | nil =>
    intro st _
    simp [runCreates, createCallListI]
  | cons it rest ih =>
    intro st h
    have h0 : resp st.nCalls = HTTPCreated := by simpa using h 0 (Nat.succ_pos _)
    have hred : runCreates resp (it :: rest) st
        = runCreates resp rest
          { st with nCalls := st.nCalls + 1,
                    calls := st.calls ++ [(toCreateCall it, resp st.nCalls)],
                    steps := st.steps ++ [toStep it] } := by
      rw [runCreates.eq_2, do_create_action_ok resp it st h0]
    have hrec := ih
      { st with nCalls := st.nCalls + 1,
                calls := st.calls ++ [(toCreateCall it, resp st.nCalls)],
                steps := st.steps ++ [toStep it] }
      (by
        intro j hj
        have hx := h (j + 1) (by simpa using Nat.succ_lt_succ hj)
        rw [show st.nCalls + 1 + j = st.nCalls + (j + 1) by omega] at *
        exact hx)
    rw [hred, hrec]
    simp only [Except.ok.injEq, ProvState.mk.injEq, createCallListI,
      List.append_assoc, List.singleton_append, List.map_cons, List.length_cons,
      and_true, true_and]
    omega

theorem runCreates_err_spec (resp : Nat → Nat) :
    ∀ (items : List CreateItem) (k : Nat) (st : ProvState),
    k < items.length →
    (∀ j, j < k → resp (st.nCalls + j) = HTTPCreated) →
    resp (st.nCalls + k) ≠ HTTPCreated →
    runCreates resp items st = Except.error
      { nCalls := st.nCalls + k + 1,
        calls := st.calls ++ createCallListI resp st.nCalls (items.take (k + 1)),
        steps := st.steps ++ (items.take k).map toStep,
        connections := st.connections } := by
  intro items
  induction items with
  | nil =>
    intro k st hk
    exact absurd hk (by simp)
  | cons it rest ih =>
    intro k st hk hmin hne
    cases k with
    | zero =>
      have h0 : resp st.nCalls ≠ HTTPCreated := by simpa using hne
      rw [runCreates.eq_2, do_create_action_err resp it st h0]
      simp [createCallListI]
    | succ k1 =>
      have h0 : resp st.nCalls = HTTPCreated := by
        simpa using hmin 0 (Nat.succ_pos _)
      have hred : runCreates resp (it :: rest) st
          = runCreates resp rest
            { st with nCalls := st.nCalls + 1,
                      calls := st.calls ++ [(toCreateCall it, resp st.nCalls)],
                      steps := st.steps ++ [toStep it] } := by
        rw [runCreates.eq_2, do_create_action_ok resp it st h0]
      have hrec := ih k1
        { st with nCalls := st.nCalls + 1,
                  calls := st.calls ++ [(toCreateCall it, resp st.nCalls)],
                  steps := st.steps ++ [toStep it] }
        (by simpa using hk)
        (by
          intro j hj
          have hx := hmin (j + 1) (by simpa using Nat.succ_lt_succ hj)
          rw [show st.nCalls + 1 + j = st.nCalls + (j + 1) by omega] at *
          exact hx)
        (by
          rw [show st.nCalls + 1 + k1 = st.nCalls + (k1 + 1) by omega]
          exact hne)
      rw [hred, hrec]
      simp only [Except.error.injEq, ProvState.mk.injEq, createCallListI,
        List.take_succ_cons, List.append_assoc, List.singleton_append,
        List.map_cons, and_true, true_and]
      omega

theorem rollbackSteps_spec (resp : Nat → Nat) :
    ∀ (L : List RollbackStep) (st : ProvState),
    rollbackSteps resp L st =
      { st with nCalls := st.nCalls + L.length,
                calls := st.calls ++ deleteCallList resp st.nCalls L } := by
  intro L
  induction L with
  | nil =>
    intro st
    simp [rollbackSteps, deleteCallList]
  | cons s rest ih =>
    intro st
    rw [rollbackSteps.eq_2, ih]
    simp only [ProvState.mk.injEq, deleteCallList, List.append_assoc,
      List.singleton_append, List.length_cons, and_true, true_and]
    omega

theorem do_rollback_spec (resp : Nat → Nat) (st : ProvState) :
    do_rollback resp st =
      { nCalls := st.nCalls + st.steps.length,
        calls := st.calls ++ deleteCallList resp st.nCalls st.steps.reverse,
        steps := [],
        connections := st.connections } := by
  rw [do_rollback, rollbackSteps_spec]
  simp [ProvState.mk.injEq]

theorem deleteCallList_map_fst (resp : Nat → Nat) :
    ∀ (L : List RollbackStep) (base : Nat),
    (deleteCallList resp base L).map Prod.fst
      = L.map (fun s => { kind := CallKind.delete, action := s.action,
                          arg := s.resource_id : CsrCall }) := by
  intro L
  induction L with
  | nil => intro base; rfl
  | cons s rest ih =>
    intro base
    simp [deleteCallList, ih]

/-- Claim C2: do_rollback walks the recorded step log in reverse
(last-created-first) order, issuing for each step the delete call of that
step's action with that step's resource id; _verify_deleted classifies a
delete status of 204 (no content) or 404 (not found) as successful removal
and anything else is merely warned about — the walk never raises and
always completes, leaving the step log empty. -/
theorem claim_C2_rollback_reverse_walk :
    ∀ (resp : Nat → Nat) (st : ProvState),
    (do_rollback resp st).steps = []
    ∧ (do_rollback resp st).calls
        = st.calls ++ deleteCallList resp st.nCalls st.steps.reverse
    ∧ ((do_rollback resp st).calls.drop st.calls.length).map Prod.fst
        = st.steps.reverse.map (fun s =>
            { kind := CallKind.delete, action := s.action,
              arg := s.resource_id : CsrCall })
    ∧ (do_rollback resp st).connections = st.connections
    ∧ (∀ code, verify_deleted code = true ↔ (code = 204 ∨ code = 404)) := by
  intro resp st
  rw [do_rollback_spec]
  refine ⟨rfl, rfl, ?_, rfl, ?_⟩
  · rw [List.drop_left, deleteCallList_map_fst]
  · intro code
    simp [verify_deleted, HTTPNoContent, HTTPNotFound]

/-- Witness for C2 at a concrete state holding two steps (IKE policy
recorded after the pre-shared key): the rollback deletes the pre-shared
key first, then the IKE policy, and clears the log. -/
theorem claim_C2_witness :
    (do_rollback sampleResp sampleRollbackState).steps = []
    ∧ (do_rollback sampleResp sampleRollbackState).calls.map Prod.fst
      = [{ kind := .delete, action := .pre_shared_key, arg := .str "conn1" },
         { kind := .delete, action := .ike_policy, arg := .str "2" }] := by
  have h := claim_C2_rollback_reverse_walk sampleResp sampleRollbackState
  refine ⟨h.1, ?_⟩
  rw [h.2.1]
  rfl

end Csr

namespace Csr

/-- Claim C1: after any create_ipsec_site_connection call, either every
create in the ordered sequence (pre-shared key, IKE policy, IPsec policy,
IPSec connection, one static route per peer CIDR) succeeded and the
non-empty step log is persisted in the connections map under the
connection id; or some create failed, no create was issued after the
failure, rollback ran (the trace continues with only the compensating
delete calls), the step log is empty afterwards and the connections map is
unchanged; or payload building failed with a validation or implementation
error and the state is returned untouched, with no REST call at all. -/
theorem claim_C1_create_atomicity :
    ∀ (resp : Nat → Nat) (mk : String → String → String) (ci : ConnInfo)
      (st : ProvState),
    ((∃ e, buildPayloads mk ci = Except.error e)
      ∧ create_ipsec_site_connection resp mk ci st = st)
    ∨ (∃ pb, buildPayloads mk ci = Except.ok pb
        ∧ (((∀ j, j < (createItems ci pb).length → resp (st.nCalls + j) = HTTPCreated)
            ∧ create_ipsec_site_connection resp mk ci st =
              { nCalls := st.nCalls + (createItems ci pb).length,
                calls := st.calls ++ createCallListI resp st.nCalls (createItems ci pb),
                steps := (createItems ci pb).map toStep,
                connections := fun x => if x = ci.site_conn.id
                  then some ((createItems ci pb).map toStep) else st.connections x }
            ∧ (createItems ci pb).map toStep ≠ [])
          ∨ (∃ k, k < (createItems ci pb).length
              ∧ (∀ j, j < k → resp (st.nCalls + j) = HTTPCreated)
              ∧ resp (st.nCalls + k) ≠ HTTPCreated
              ∧ create_ipsec_site_connection resp mk ci st =
                { nCalls := st.nCalls + k + 1 + k,
                  calls := st.calls
                    ++ createCallListI resp st.nCalls ((createItems ci pb).take (k + 1))
                    ++ deleteCallList resp (st.nCalls + k + 1)
                        (((createItems ci pb).take k).map toStep).reverse,
                  steps := [],
                  connections := st.connections }))) := by
  intro resp mk ci st
  cases hb : buildPayloads mk ci with
  | error e =>
    left
    exact ⟨⟨e, rfl⟩, by simp [create_ipsec_site_connection, hb]⟩
  | ok pb =>
    right
    refine ⟨pb, rfl, ?_⟩
    by_cases hall : ∀ j, j < (createItems ci pb).length →
        resp (st.nCalls + j) = HTTPCreated
    · left
      have hrun := runCreates_ok_spec resp (createItems ci pb)
        { st with steps := [] } hall
      refine ⟨hall, ?_, ?_⟩
      · simp only [create_ipsec_site_connection, hb, hrun]
        simp [List.nil_append]
      · simp [createItems]
    · right
      have hex : ∃ j, j < (createItems ci pb).length
          ∧ resp (st.nCalls + j) ≠ HTTPCreated := by
        push_neg at hall
        exact hall
      refine ⟨Nat.find hex, (Nat.find_spec hex).1, ?_, (Nat.find_spec hex).2, ?_⟩
      · intro j hj
        by_contra hne
        exact absurd ⟨Nat.lt_trans hj (Nat.find_spec hex).1, hne⟩ (Nat.find_min hex hj)
      · have hrun := runCreates_err_spec resp (createItems ci pb) (Nat.find hex)
          { st with steps := [] } (Nat.find_spec hex).1
          (by
            intro j hj
            by_contra hne
            exact absurd ⟨Nat.lt_trans hj (Nat.find_spec hex).1, hne⟩
              (Nat.find_min hex hj))
          (Nat.find_spec hex).2
        simp only [create_ipsec_site_connection, hb, hrun]
        rw [do_rollback_spec]
        simp only [ProvState.mk.injEq, List.nil_append, List.length_reverse,
          List.length_map, List.length_take, and_true, true_and]
        have := (Nat.find_spec hex).1
        omega

/-- Witness for C1 at a concrete fully-successful create: the persisted
step log is non-empty. -/
theorem claim_C1_witness : sampleSt1.steps ≠ [] := by
  have hconc : buildPayloads sampleMk sampleConnInfo = Except.ok samplePayloads := rfl
  have h := claim_C1_create_atomicity sampleResp sampleMk sampleConnInfo sampleSt0
  rcases h with ⟨⟨e, he⟩, -⟩ | ⟨pb, hpb, ⟨-, heq, hnonempty⟩ | ⟨k, -, -, hne, -⟩⟩
  · rw [hconc] at he
    exact Except.noConfusion he
  · show (create_ipsec_site_connection sampleResp sampleMk sampleConnInfo sampleSt0).steps ≠ []
    rw [heq]
    exact hnonempty
  · exact absurd rfl hne

/-- Claim C3 evaluated at the failing input (one peer CIDR 10.2.0.0/24,
site_conn_id Tunnel0, every call returning 201): the static-route create
call's payload argument is the route-id STRING (make_route_id of the CIDR
and tunnel), not the route dict, and the recorded rollback step's
resource_id is the route DICT, not the route id — the source unpacks the
(route_id, route) pairs in swapped order at line 834. -/
theorem claim_C3_static_route_argument_swap :
    sampleSt1.calls.map Prod.fst =
      [{ kind := .create, action := .pre_shared_key,
         arg := .payload (.psk "conn1" "secret" "10.10.10.10") },
       { kind := .create, action := .ike_policy,
         arg := .payload (.ikePolicy (.s "v1") "2" (.s "3des") (.s "sha") (.n 2) 3600) },
       { kind := .create, action := .ipsec_policy,
         arg := .payload (.ipsecPolicy "8" (.s "esp-3des") (.s "esp-sha-hmac")
            (.s "ah-sha-hmac") 3600 (.s "group2") "128") },
       { kind := .create, action := .ipsec_connection,
         arg := .payload (.siteConn "Tunnel0" "8" "GigabitEthernet3" "172.24.4.23"
            "10.10.10.10" 1500) },
       { kind := .create, action := .static_route, arg := .str "10.2.0.0/24_Tunnel0" }]
    ∧ sampleSt1.steps =
      [{ action := .pre_shared_key, resource_id := .str "conn1",
         title := "Pre-Shared Key" },
       { action := .ike_policy, resource_id := .str "2", title := "IKE Policy" },
       { action := .ipsec_policy, resource_id := .str "8", title := "IPSec Policy" },
       { action := .ipsec_connection, resource_id := .str "Tunnel0",
         title := "IPSec Connection" },
       { action := .static_route,
         resource_id := .payload (.routeDict "10.2.0.0/24" "Tunnel0"),
         title := "Static Route" }] := by
  constructor
  · rfl
  · rfl

/-- Claim C7 evaluated on the trace create-delete-delete of connection
conn1: the successful create persists the 5-step log; the first delete
issues the 5 compensating deletes and clears the in-flight register, but
the persisted connections-map entry SURVIVES it (delete never removes it
and do_rollback only rebinds self.steps), so the second delete finds the
log again and issues 5 further delete calls instead of warning and doing
nothing. -/
theorem claim_C7_stale_log_after_delete :
    (sampleSt1.connections "conn1").map List.length = some 5
    ∧ sampleSt2.steps = []
    ∧ sampleSt2.calls.length = 10
    ∧ sampleSt2.connections "conn1" = sampleSt1.connections "conn1"
    ∧ sampleSt3.calls.length = 15
    ∧ (sampleSt3.calls.drop 10).map (fun c => c.1.kind)
        = [CallKind.delete, CallKind.delete, CallKind.delete,
           CallKind.delete, CallKind.delete] := by
  refine ⟨rfl, rfl, rfl, rfl, rfl, rfl⟩

end Csr

namespace Swan

/-- Witness for C8 (amended) at concrete inputs: an active process whose
stop() succeeds gets its config removed without raising. -/
theorem claim_C8_witness :
    (disable true false).stop_called = true
    ∧ (disable true false).config_removed = true
    ∧ (disable true false).raised = false :=
  ⟨(claim_C8_amended true false).2.1, (claim_C8_amended true false).2.2,
   (claim_C8_amended true false).1⟩

end Swan

-- ===== END THEOREMS =====
